import Mathlib

/-!
Verification of the stroke-risk web application core
(`web_app/src/model_handler.py`, `web_app/src/feature_engineering_exact.py`,
`web_app/src/feature_engineering.py`).

The Python code is shallowly embedded over exact rational arithmetic:
a patient-data dictionary becomes a structure of `Option` fields
(`none` models an absent key), numeric values become `ℚ`, and the
Python `dict.get(key, default)` idiom becomes `Option.getD`.
-/

namespace StrokeRisk

/-- A patient-data dictionary.  Each field models one key of the Python
dict handed to the model handler; `none` means the key is absent. -/
structure PatientData where
  age : Option ℚ
  gender : Option String
  hypertension : Option ℤ
  heart_disease : Option ℤ
  ever_married : Option String
  work_type : Option String
  residence_type : Option String
  avg_glucose_level : Option ℚ
  bmi : Option ℚ
  smoking_status : Option String

/-- Python `float(patient_data.get(.age, 50))`. -/
def ageVal (p : PatientData) : ℚ := p.age.getD 50

/-- Python `int(patient_data.get(.hypertension, 0))`, as a rational. -/
def hypVal (p : PatientData) : ℚ := ((p.hypertension.getD 0 : ℤ) : ℚ)

/-- Python `int(patient_data.get(.heart_disease, 0))`, as a rational. -/
def hdVal (p : PatientData) : ℚ := ((p.heart_disease.getD 0 : ℤ) : ℚ)

/-- Python `float(patient_data.get(.avg_glucose_level, 100))`. -/
def glucoseVal (p : PatientData) : ℚ := p.avg_glucose_level.getD 100

/-- Python `float(patient_data.get(.bmi, 25))`. -/
def bmiVal (p : PatientData) : ℚ := p.bmi.getD 25

/-- Python `patient_data.get(.gender, Male)`. -/
def genderVal (p : PatientData) : String := p.gender.getD "Male"

/-- Python `patient_data.get(.ever_married, Yes)`. -/
def marriedStr (p : PatientData) : String := p.ever_married.getD "Yes"

/-- Python `patient_data.get(.smoking_status, never_smoked)`. -/
def smokingVal (p : PatientData) : String := p.smoking_status.getD "never_smoked"

/-- Python `patient_data.get(.work_type, Private)`. -/
def workTypeVal (p : PatientData) : String := p.work_type.getD "Private"

/-- Python `patient_data.get(.Residence_type, Urban)`. -/
def residenceVal (p : PatientData) : String := p.residence_type.getD "Urban"

/-- `gender_male = 1 if gender == Male else 0`. -/
def genderMaleVal (p : PatientData) : ℚ := if genderVal p = "Male" then 1 else 0

/-- `gender_female = 1 if gender == Female else 0`. -/
def genderFemaleVal (p : PatientData) : ℚ := if genderVal p = "Female" then 1 else 0

/-- `married = 1 if ever_married == Yes else 0`. -/
def marriedVal (p : PatientData) : ℚ := if marriedStr p = "Yes" then 1 else 0

/-- `diabetes_indicator = 1 if avg_glucose_level > 125 else 0`
(feature_engineering_exact.py line 73). -/
def diabetes_indicator (p : PatientData) : ℚ := if glucoseVal p > 125 then 1 else 0

/-- `elderly_indicator = 1 if age >= 65 else 0`
(feature_engineering_exact.py line 74). -/
def elderly_indicator (p : PatientData) : ℚ := if ageVal p ≥ 65 then 1 else 0

/-- `obesity_indicator = 1 if bmi >= 30 else 0`
(feature_engineering_exact.py line 75). -/
def obesity_indicator (p : PatientData) : ℚ := if bmiVal p ≥ 30 then 1 else 0

/-- `ModelHandler._classify_risk` (model_handler.py lines 81-90):
the if/elif chain mapping a calibrated probability to a tier string. -/
def classify_risk (probability : ℚ) : String :=
  if probability < 1/10 then "Low Risk"
  else if probability < 3/10 then "Moderate Risk"
  else if probability < 6/10 then "High Risk"
  else "Very High Risk"

/-- One range check of `validate_prediction_inputs`: in Python, a key
that is present is tested against its predicate and contributes one
error message on failure; an absent key contributes nothing here
(it is reported by the missing-field loop instead). -/
def rangeCheck {α : Type} (o : Option α) (P : α → Prop) [DecidablePred P]
    (msg : String) : List String :=
  match o with
  | none => []
  | some a => if P a then [] else [msg]

/-- One missing-field check of `validate_prediction_inputs`. -/
def presentCheck {α : Type} (o : Option α) (msg : String) : List String :=
  if o.isSome then [] else [msg]

/-- The error list accumulated by `ModelHandler.validate_prediction_inputs`
(model_handler.py lines 155-200), with the checks in source order:
the ten missing-field checks, then the three numeric range checks,
then the four categorical checks. -/
def validate_errors (p : PatientData) : List String :=
  presentCheck p.age "Missing required field: age" ++
  presentCheck p.gender "Missing required field: gender" ++
  presentCheck p.hypertension "Missing required field: hypertension" ++
  presentCheck p.heart_disease "Missing required field: heart_disease" ++
  presentCheck p.ever_married "Missing required field: ever_married" ++
  presentCheck p.work_type "Missing required field: work_type" ++
  presentCheck p.residence_type "Missing required field: Residence_type" ++
  presentCheck p.avg_glucose_level "Missing required field: avg_glucose_level" ++
  presentCheck p.bmi "Missing required field: bmi" ++
  presentCheck p.smoking_status "Missing required field: smoking_status" ++
  rangeCheck p.age (fun a => 18 ≤ a ∧ a ≤ 120)
    "Age must be between 18 and 120 years" ++
  rangeCheck p.bmi (fun b => 10 ≤ b ∧ b ≤ 70)
    "BMI must be between 10.0 and 70.0" ++
  rangeCheck p.avg_glucose_level (fun g => 50 ≤ g ∧ g ≤ 400)
    "Glucose level must be between 50.0 and 400.0 mg/dL" ++
  rangeCheck p.gender (fun s => s = "Male" ∨ s = "Female")
    "Gender must be \x27Male\x27 or \x27Female\x27" ++
  rangeCheck p.ever_married (fun s => s = "Yes" ∨ s = "No")
    "Ever married must be \x27Yes\x27 or \x27No\x27" ++
  rangeCheck p.hypertension (fun k => k = 0 ∨ k = 1)
    "Hypertension must be 0 or 1" ++
  rangeCheck p.heart_disease (fun k => k = 0 ∨ k = 1)
    "Heart disease must be 0 or 1"

/-- `ModelHandler.validate_prediction_inputs`: returns
`(len(errors) == 0, errors)`. -/
def validate_prediction_inputs (p : PatientData) : Bool × List String :=
  ((validate_errors p).isEmpty, validate_errors p)

/-- The C4 test input: age 15, bmi 5, avg_glucose_level 10 (all three out
of range simultaneously), every other required field present and valid. -/
def patientAllOutOfRange : PatientData :=
  { age := some 15
    gender := some "Male"
    hypertension := some 0
    heart_disease := some 0
    ever_married := some "Yes"
    work_type := some "Private"
    residence_type := some "Urban"
    avg_glucose_level := some 10
    bmi := some 5
    smoking_status := some "never_smoked" }

/-- Python `sub in s` on strings: substring containment. -/
def strContains (sub s : String) : Bool := decide (sub.toList <:+: s.toList)

/-- The comprehensive feature dictionary built by
`FixedFeatureEngineer.engineer_features`
(feature_engineering_exact.py lines 78-170), as an association list in
source order (all keys are distinct, so first-match lookup agrees with
the Python dict). -/
def feature_mapping (p : PatientData) : List (String × ℚ) :=
  [("age", ageVal p),
   ("hypertension", hypVal p),
   ("heart_disease", hdVal p),
   ("avg_glucose_level", glucoseVal p),
   ("bmi", bmiVal p),
   ("gender_male", if genderVal p = "Male" then 1 else 0),
   ("gender_female", if genderVal p = "Female" then 1 else 0),
   ("gender_Male", if genderVal p = "Male" then 1 else 0),
   ("gender_Female", if genderVal p = "Female" then 1 else 0),
   ("gender_Other",
     if genderVal p = "Male" ∨ genderVal p = "Female" then 0 else 1),
   ("married", marriedVal p),
   ("ever_married_Yes", marriedVal p),
   ("ever_married_No", 1 - marriedVal p),
   ("work_type_Private", if workTypeVal p = "Private" then 1 else 0),
   ("work_type_Self-employed",
     if workTypeVal p = "Self-employed" then 1 else 0),
   ("work_type_Govt_job", if workTypeVal p = "Govt_job" then 1 else 0),
   ("work_type_children", if workTypeVal p = "children" then 1 else 0),
   ("work_type_Never_worked",
     if workTypeVal p = "Never_worked" then 1 else 0),
   ("Residence_type_Urban", if residenceVal p = "Urban" then 1 else 0),
   ("Residence_type_Rural", if residenceVal p = "Rural" then 1 else 0),
   ("smoking_status_never smoked",
     if strContains "never" (smokingVal p) then 1 else 0),
   ("smoking_status_formerly smoked",
     if strContains "formerly" (smokingVal p) then 1 else 0),
   ("smoking_status_smokes", if smokingVal p = "smokes" then 1 else 0),
   ("smoking_status_Unknown", if smokingVal p = "Unknown" then 1 else 0),
   ("age_decade", ageVal p / 10),
   ("age_high_risk", elderly_indicator p),
   ("age_squared", ageVal p * ageVal p),
   ("cv_risk_count",
     hypVal p + hdVal p + diabetes_indicator p + obesity_indicator p),
   ("modifiable_risk_count",
     hypVal p + diabetes_indicator p + obesity_indicator p),
   ("hypertension_elderly", hypVal p * elderly_indicator p),
   ("female_elderly", genderFemaleVal p * elderly_indicator p),
   ("male_elderly", genderMaleVal p * elderly_indicator p),
   ("male_age_interaction", genderMaleVal p * ageVal p),
   ("female_age_interaction", genderFemaleVal p * ageVal p),
   ("age_hypertension", ageVal p * hypVal p),
   ("age_heart_disease", ageVal p * hdVal p),
   ("bmi_hypertension", bmiVal p * hypVal p),
   ("bmi_heart_disease", bmiVal p * hdVal p),
   ("glucose_heart_disease", glucoseVal p * hdVal p),
   ("glucose_hypertension", glucoseVal p * hypVal p),
   ("age_hypertension_diabetes",
     ageVal p * hypVal p * diabetes_indicator p),
   ("bmi_glucose", bmiVal p * glucoseVal p),
   ("age_obesity", ageVal p * obesity_indicator p),
   ("bmi_diabetes", bmiVal p * diabetes_indicator p),
   ("age_diabetes", ageVal p * diabetes_indicator p),
   ("bmi_normal", if 37/2 ≤ bmiVal p ∧ bmiVal p < 25 then 1 else 0),
   ("bmi_overweight", if 25 ≤ bmiVal p ∧ bmiVal p < 30 then 1 else 0),
   ("bmi_obese", if bmiVal p ≥ 30 then 1 else 0),
   ("bmi_underweight", if bmiVal p < 37/2 then 1 else 0),
   ("glucose_normal", if glucoseVal p < 100 then 1 else 0),
   ("glucose_prediabetic",
     if 100 ≤ glucoseVal p ∧ glucoseVal p ≤ 125 then 1 else 0),
   ("glucose_diabetic", if glucoseVal p > 125 then 1 else 0),
   ("age_young", if ageVal p < 45 then 1 else 0),
   ("age_middle", if 45 ≤ ageVal p ∧ ageVal p < 65 then 1 else 0),
   ("age_elderly", if ageVal p ≥ 65 then 1 else 0),
   ("work_stress_level", 2),
   ("high_stress_work", 0),
   ("age_bmi_interaction", ageVal p * bmiVal p),
   ("glucose_age_interaction", glucoseVal p * ageVal p),
   ("hypertension_heart_disease", hypVal p * hdVal p),
   ("cardiovascular_risk_score",
     ageVal p / 10 + hypVal p * 2 + hdVal p * 3 + diabetes_indicator p * 2),
   ("metabolic_risk_score",
     bmiVal p / 5 + glucoseVal p / 50 + diabetes_indicator p * 3)]

/-- The exact 26 feature names fixed in `FixedFeatureEngineer.__init__`
(feature_engineering_exact.py lines 13-40), in source order. -/
def feature_names : List String :=
  ["age_diabetes",
   "cv_risk_count",
   "age_decade",
   "work_stress_level",
   "hypertension_elderly",
   "high_stress_work",
   "hypertension",
   "married",
   "male_age_interaction",
   "bmi_hypertension",
   "age_hypertension_diabetes",
   "bmi_glucose",
   "heart_disease",
   "bmi",
   "age_high_risk",
   "glucose_heart_disease",
   "avg_glucose_level",
   "gender_female",
   "female_elderly",
   "age_hypertension",
   "age_obesity",
   "age",
   "gender_male",
   "gender_Other",
   "modifiable_risk_count",
   "bmi_diabetes"]

/-- The output loop of `FixedFeatureEngineer.engineer_features`
(feature_engineering_exact.py lines 172-183): for each requested name,
emit the computed value when the name is a key of the mapping and
silently emit 0.0 otherwise. -/
def buildFeatures (names : List String) (m : List (String × ℚ)) : List ℚ :=
  names.map fun n =>
    match m.lookup n with
    | some v => v
    | none => 0

/-- The strict variant demanded by the spec: a schema name absent from
the computed mapping is a hard error (`none`) instead of a silent 0. -/
def buildFeaturesStrict (names : List String) (m : List (String × ℚ)) :
    Option (List ℚ) :=
  names.mapM fun n => m.lookup n

/-- `FixedFeatureEngineer.engineer_features`: the 26-entry feature vector
in the exact source order. -/
def engineer_features (p : PatientData) : List ℚ :=
  buildFeatures feature_names (feature_mapping p)

/-- The 27 feature names fixed in the `__init__` of the divergent
27-feature engineer (feature_engineering.py lines 21-30), in source
order (the list repeats gender_Male). -/
def feature_names27 : List String :=
  ["age", "hypertension", "heart_disease", "avg_glucose_level", "bmi",
   "gender_Male", "gender_female", "married",
   "age_decade", "age_high_risk", "cv_risk_count",
   "hypertension_elderly", "female_elderly", "male_age_interaction",
   "age_hypertension", "bmi_hypertension", "glucose_heart_disease",
   "age_hypertension_diabetes", "bmi_glucose", "age_obesity",
   "bmi_diabetes", "age_diabetes", "modifiable_risk_count",
   "work_stress_level", "high_stress_work", "gender_Male", "gender_Other"]

/-- The literal 27-entry feature list built by the divergent engineer
`FixedFeatureEngineer.engineer_features` (feature_engineering.py lines
70-111); its gender_Other entry is the constant 0. -/
def engineer_features27_list (p : PatientData) : List ℚ :=
  [ageVal p,
   hypVal p,
   hdVal p,
   glucoseVal p,
   bmiVal p,
   genderMaleVal p,
   genderFemaleVal p,
   marriedVal p,
   ageVal p / 10,
   elderly_indicator p,
   hypVal p + hdVal p + diabetes_indicator p + obesity_indicator p,
   hypVal p * elderly_indicator p,
   genderFemaleVal p * elderly_indicator p,
   genderMaleVal p * ageVal p,
   ageVal p * hypVal p,
   bmiVal p * hypVal p,
   glucoseVal p * hdVal p,
   ageVal p * hypVal p * diabetes_indicator p,
   bmiVal p * glucoseVal p,
   ageVal p * obesity_indicator p,
   bmiVal p * diabetes_indicator p,
   ageVal p * diabetes_indicator p,
   hypVal p + diabetes_indicator p + obesity_indicator p,
   2,
   0,
   genderMaleVal p,
   0]

/-- The divergent engineer with its final count guard
(feature_engineering.py lines 113-122): raise (here `none`) when the
built list and the name table disagree in length, else return the list. -/
def engineer_features27 (p : PatientData) : Option (List ℚ) :=
  if (engineer_features27_list p).length = feature_names27.length then
    some (engineer_features27_list p)
  else none

/-- A fully specified baseline patient used for concrete test points. -/
def basePatient : PatientData :=
  { age := some 50
    gender := some "Male"
    hypertension := some 0
    heart_disease := some 0
    ever_married := some "Yes"
    work_type := some "Private"
    residence_type := some "Urban"
    avg_glucose_level := some 100
    bmi := some 25
    smoking_status := some "never_smoked" }

/-- The C6 test point: hypertension 1, bmi 32, avg_glucose_level 150. -/
def patientModifiable : PatientData :=
  { basePatient with
    hypertension := some 1
    bmi := some 32
    avg_glucose_level := some 150 }

/-- The high-risk test patient of the source test functions: 77-year-old
male with hypertension, heart disease, glucose 236 and bmi 36.7. -/
def patient77 : PatientData :=
  { age := some 77
    gender := some "Male"
    hypertension := some 1
    heart_disease := some 1
    ever_married := some "Yes"
    work_type := some "Retired"
    residence_type := some "Urban"
    avg_glucose_level := some 236
    bmi := some (367/10)
    smoking_status := some "never_smoked" }

/-- The age weight of `ModelHandler._get_feature_importance`:
`min(age / 100.0, 0.35)`. -/
def wAge (p : PatientData) : ℚ := min (ageVal p / 100) (35/100)

/-- The hypertension weight: `0.15 if hypertension == 1 else 0.0`. -/
def wHyp (p : PatientData) : ℚ :=
  if p.hypertension.getD 0 = 1 then 15/100 else 0

/-- The heart-disease weight: `0.20 if heart_disease == 1 else 0.0`. -/
def wHeart (p : PatientData) : ℚ :=
  if p.heart_disease.getD 0 = 1 then 20/100 else 0

/-- The glucose weight: `min(avg_glucose_level / 200.0, 0.25)`. -/
def wGlucose (p : PatientData) : ℚ := min (glucoseVal p / 200) (25/100)

/-- The bmi weight: `0.15 if bmi > 30 else 0.10 if bmi > 25 else 0.05`. -/
def wBmi (p : PatientData) : ℚ :=
  if bmiVal p > 30 then 15/100 else if bmiVal p > 25 then 10/100 else 5/100

/-- The smoking weight: `0.15 if smokes in status else
0.05 if formerly in status else 0.0` (Python substring tests). -/
def wSmoke (p : PatientData) : ℚ :=
  if strContains "smokes" (smokingVal p) then 15/100
  else if strContains "formerly" (smokingVal p) then 5/100 else 0

/-- The gender weight: `0.05 if gender == Male else 0.02`. -/
def wGender (p : PatientData) : ℚ :=
  if genderVal p = "Male" then 5/100 else 2/100

/-- The marital weight: `0.03 if ever_married == Yes else 0.0`. -/
def wMarried (p : PatientData) : ℚ :=
  if marriedStr p = "Yes" then 3/100 else 0

/-- The raw `feature_weights` dictionary of
`ModelHandler._get_feature_importance` (model_handler.py lines 106-116),
in source order. -/
def importance_raw (p : PatientData) : List (String × ℚ) :=
  [("age", wAge p),
   ("hypertension", wHyp p),
   ("heart_disease", wHeart p),
   ("avg_glucose_level", wGlucose p),
   ("bmi", wBmi p),
   ("smoking_status", wSmoke p),
   ("gender", wGender p),
   ("ever_married", wMarried p)]

/-- `total_weight = sum(feature_weights.values())`. -/
def importance_total (p : PatientData) : ℚ :=
  ((importance_raw p).map Prod.snd).sum

/-- `ModelHandler._get_feature_importance` (model_handler.py lines
92-123): when the total weight is positive every weight is divided by
it, otherwise the raw weights are returned unchanged. -/
def get_feature_importance (p : PatientData) : List (String × ℚ) :=
  if 0 < importance_total p then
    (importance_raw p).map fun kv => (kv.1, kv.2 / importance_total p)
  else importance_raw p

end StrokeRisk

namespace StrokeRisk

/-- C1: on the unit interval the risk tiers are exactly the four half-open
bands `[0, 0.10) ↦ Low`, `[0.10, 0.30) ↦ Moderate`, `[0.30, 0.60) ↦ High`,
`[0.60, 1.0] ↦ Very High`; each boundary point falls in the upper band. -/
theorem classify_risk_bands (probability : ℚ)
    (hp0 : 0 ≤ probability) (hp1 : probability ≤ 1) :
    (probability < 1/10 → classify_risk probability = "Low Risk") ∧
    (1/10 ≤ probability → probability < 3/10 →
      classify_risk probability = "Moderate Risk") ∧
    (3/10 ≤ probability → probability < 6/10 →
      classify_risk probability = "High Risk") ∧
    (6/10 ≤ probability → classify_risk probability = "Very High Risk") := by
  refine ⟨fun h => ?_, fun h1 h2 => ?_, fun h1 h2 => ?_, fun h => ?_⟩ <;>
    simp only [classify_risk]
  · rw [if_pos h]
  · rw [if_neg (by linarith), if_pos h2]
  · rw [if_neg (by linarith), if_neg (by linarith), if_pos h2]
  · rw [if_neg (by linarith), if_neg (by linarith), if_neg (by linarith)]

/-- Witness for C1: the boundary point 0.10 lies in the unit interval and is
classified Moderate Risk. -/
theorem classify_risk_bands_witness :
    ((0:ℚ) ≤ 1/10 ∧ (1/10:ℚ) ≤ 1) ∧ classify_risk (1/10) = "Moderate Risk" :=
  ⟨⟨by norm_num, by norm_num⟩,
    (classify_risk_bands (1/10) (by norm_num) (by norm_num)).2.1
      (by norm_num) (by norm_num)⟩

/-- C10: the risk classifier is total over all rational probabilities: it
always returns one of the four tier strings, every negative input is
classified Low Risk and every input above 1 is classified Very High Risk. -/
theorem classify_risk_total (probability : ℚ) :
    (classify_risk probability = "Low Risk" ∨
      classify_risk probability = "Moderate Risk" ∨
      classify_risk probability = "High Risk" ∨
      classify_risk probability = "Very High Risk") ∧
    (probability < 0 → classify_risk probability = "Low Risk") ∧
    (1 < probability → classify_risk probability = "Very High Risk") := by
  unfold classify_risk
  refine ⟨?_, fun h => ?_, fun h => ?_⟩
  · split_ifs <;> simp
  · rw [if_pos (by linarith)]
  · rw [if_neg (by linarith), if_neg (by linarith), if_neg (by linarith)]

/-- Witness for C10: a negative probability is Low Risk and a probability
above one is Very High Risk. -/
theorem classify_risk_total_witness :
    ((-1 : ℚ) < 0 ∧ classify_risk (-1) = "Low Risk") ∧
    ((1 : ℚ) < 2 ∧ classify_risk 2 = "Very High Risk") :=
  ⟨⟨by norm_num, (classify_risk_total (-1)).2.1 (by norm_num)⟩,
    ⟨by norm_num, (classify_risk_total 2).2.2 (by norm_num)⟩⟩

theorem rangeCheck_eq_nil {α : Type} (o : Option α) (P : α → Prop)
    [DecidablePred P] (msg : String) :
    rangeCheck o P msg = [] ↔ ∀ a, o = some a → P a := by
  cases o <;> simp [rangeCheck]

theorem presentCheck_eq_nil {α : Type} (o : Option α) (msg : String) :
    presentCheck o msg = [] ↔ o.isSome := by
  cases o <;> simp [presentCheck]

/-- C3: validation succeeds with an empty error list exactly when all ten
required fields are present, age lies in [18, 120], bmi in [10, 70],
avg_glucose_level in [50, 400], gender is Male or Female, ever_married is
Yes or No and hypertension and heart_disease are each 0 or 1.  The
embedding is a pure function of the input, so the call neither mutates
the patient data nor has any side effect. -/
theorem validate_success_iff (p : PatientData) :
    ((validate_prediction_inputs p).1 = true ∧
      (validate_prediction_inputs p).2 = []) ↔
    ((p.age.isSome ∧ p.gender.isSome ∧ p.hypertension.isSome ∧
        p.heart_disease.isSome ∧ p.ever_married.isSome ∧
        p.work_type.isSome ∧ p.residence_type.isSome ∧
        p.avg_glucose_level.isSome ∧ p.bmi.isSome ∧
        p.smoking_status.isSome) ∧
      (∀ a, p.age = some a → 18 ≤ a ∧ a ≤ 120) ∧
      (∀ b, p.bmi = some b → 10 ≤ b ∧ b ≤ 70) ∧
      (∀ g, p.avg_glucose_level = some g → 50 ≤ g ∧ g ≤ 400) ∧
      (∀ s, p.gender = some s → s = "Male" ∨ s = "Female") ∧
      (∀ s, p.ever_married = some s → s = "Yes" ∨ s = "No") ∧
      (∀ k, p.hypertension = some k → k = 0 ∨ k = 1) ∧
      (∀ k, p.heart_disease = some k → k = 0 ∨ k = 1)) := by
  have h1 : ((validate_prediction_inputs p).1 = true ∧
      (validate_prediction_inputs p).2 = []) ↔ validate_errors p = [] := by
    constructor
    · exact fun h => h.2
    · intro h
      exact ⟨by simp only [validate_prediction_inputs, h]; rfl, h⟩
  rw [h1]
  simp only [validate_errors, List.append_eq_nil, rangeCheck_eq_nil,
    presentCheck_eq_nil, and_assoc]

/-- Witness for C3: a concrete fully-valid record validates with an empty
error list. -/
theorem validate_success_iff_witness :
    (validate_prediction_inputs
      { age := some 45
        gender := some "Female"
        hypertension := some 0
        heart_disease := some 0
        ever_married := some "No"
        work_type := some "Private"
        residence_type := some "Rural"
        avg_glucose_level := some 90
        bmi := some 22
        smoking_status := some "never_smoked" }).1 = true ∧
    (validate_prediction_inputs
      { age := some 45
        gender := some "Female"
        hypertension := some 0
        heart_disease := some 0
        ever_married := some "No"
        work_type := some "Private"
        residence_type := some "Rural"
        avg_glucose_level := some 90
        bmi := some 22
        smoking_status := some "never_smoked" }).2 = [] :=
  (validate_success_iff _).mpr (by refine ⟨⟨?_, ?_, ?_, ?_, ?_, ?_, ?_, ?_, ?_, ?_⟩, ?_, ?_, ?_, ?_, ?_, ?_, ?_⟩ <;> simp <;> norm_num)

/-- C4: for the input with age 15, bmi 5 and glucose 10 and every other
field present and valid, validation returns exactly the three range
violation messages, one for each out-of-range field, in a single call. -/
theorem validate_reports_all_violations :
    (validate_prediction_inputs patientAllOutOfRange).2 =
      ["Age must be between 18 and 120 years",
       "BMI must be between 10.0 and 70.0",
       "Glucose level must be between 50.0 and 400.0 mg/dL"] := by
  decide

theorem indicator_eq_iff (c : Prop) [Decidable c] :
    ((if c then (1:ℚ) else 0) = 1 ↔ c) ∧
    ((if c then (1:ℚ) else 0) = 0 ↔ ¬ c) := by
  split <;> simp_all

/-- C5: the derived indicators of the feature engineer are exactly
diabetic = (glucose > 125), elderly = (age ≥ 65), obese = (bmi ≥ 30):
strict for glucose, inclusive for age and bmi; the age_high_risk entry of
the emitted vector is the elderly indicator, and at the boundary points
glucose 125 is not diabetic while age 65 is elderly and bmi 30 is obese. -/
theorem derived_indicator_thresholds (p : PatientData) :
    ((diabetes_indicator p = 1 ↔ glucoseVal p > 125) ∧
      (diabetes_indicator p = 0 ↔ ¬ glucoseVal p > 125) ∧
      (elderly_indicator p = 1 ↔ ageVal p ≥ 65) ∧
      (elderly_indicator p = 0 ↔ ¬ ageVal p ≥ 65) ∧
      (obesity_indicator p = 1 ↔ bmiVal p ≥ 30) ∧
      (obesity_indicator p = 0 ↔ ¬ bmiVal p ≥ 30)) ∧
    (engineer_features p)[14]? = some (elderly_indicator p) ∧
    (diabetes_indicator
        { basePatient with avg_glucose_level := some 125 } = 0 ∧
      elderly_indicator { basePatient with age := some 65 } = 1 ∧
      obesity_indicator { basePatient with bmi := some 30 } = 1) := by
  refine ⟨⟨(indicator_eq_iff _).1, (indicator_eq_iff _).2,
      (indicator_eq_iff _).1, (indicator_eq_iff _).2,
      (indicator_eq_iff _).1, (indicator_eq_iff _).2⟩, rfl, by decide⟩

/-- Witness for C5: at the concrete boundary patient with glucose 125 the
diabetic iff instantiates to the expected concrete facts. -/
theorem derived_indicator_thresholds_witness :
    diabetes_indicator { basePatient with avg_glucose_level := some 125 } = 0 ∧
    ¬ glucoseVal { basePatient with avg_glucose_level := some 125 } > 125 :=
  have h := derived_indicator_thresholds
    { basePatient with avg_glucose_level := some 125 }
  ⟨h.2.2.1, (h.1.2.1).mp h.2.2.1⟩

/-- C6: the cv_risk_count entry of the emitted vector is
hypertension + heart_disease + diabetic + obese and the
modifiable_risk_count entry is hypertension + diabetic + obese
(heart_disease excluded); for the patient with hypertension 1, bmi 32
and glucose 150 the modifiable count is 3. -/
theorem risk_count_aggregates (p : PatientData) :
    (engineer_features p)[1]? =
      some (hypVal p + hdVal p + diabetes_indicator p +
        obesity_indicator p) ∧
    (engineer_features p)[24]? =
      some (hypVal p + diabetes_indicator p + obesity_indicator p) ∧
    (engineer_features patientModifiable)[24]? = some 3 := by
  refine ⟨rfl, rfl, ?_⟩
  have h : (engineer_features patientModifiable)[24]? =
      some (hypVal patientModifiable + diabetes_indicator patientModifiable +
        obesity_indicator patientModifiable) := rfl
  rw [h, diabetes_indicator, obesity_indicator,
    if_pos (show glucoseVal patientModifiable > 125 by norm_num [glucoseVal, patientModifiable, basePatient]),
    if_pos (show bmiVal patientModifiable ≥ 30 by norm_num [bmiVal, patientModifiable, basePatient])]
  norm_num [hypVal, patientModifiable, basePatient]

/-- C8: the output loop of the feature engineer does not fail on a schema
name absent from the computed mapping: it silently emits 0.0 for it (the
strict behavior the spec demands would reject the request instead).  The
name age_cubed is not a key of the mapping for any input. -/
theorem missing_feature_silently_zeroed (p : PatientData) :
    (feature_mapping p).lookup "age_cubed" = none ∧
    buildFeatures ["age_cubed"] (feature_mapping p) = [0] ∧
    buildFeaturesStrict ["age_cubed"] (feature_mapping p) = none := by
  refine ⟨rfl, rfl, rfl⟩

theorem ind01 (c : Prop) [Decidable c] :
    0 ≤ (if c then (1:ℚ) else 0) ∧ (if c then (1:ℚ) else 0) ≤ 1 := by
  split <;> norm_num

theorem mulind {x i B : ℚ} (hx0 : 0 ≤ x) (hxB : x ≤ B)
    (hi0 : 0 ≤ i) (hi1 : i ≤ 1) : 0 ≤ x * i ∧ x * i ≤ B :=
  ⟨mul_nonneg hx0 hi0, (mul_le_of_le_one_right hx0 hi1).trans hxB⟩

theorem indmul {i x B : ℚ} (hi0 : 0 ≤ i) (hi1 : i ≤ 1)
    (hx0 : 0 ≤ x) (hxB : x ≤ B) : 0 ≤ i * x ∧ i * x ≤ B :=
  ⟨mul_nonneg hi0 hx0, (mul_le_of_le_one_left hx0 hi1).trans hxB⟩

theorem mulbound {x y Bx By : ℚ} (hx0 : 0 ≤ x) (hxB : x ≤ Bx)
    (hy0 : 0 ≤ y) (hyB : y ≤ By) (hBx : 0 ≤ Bx) :
    0 ≤ x * y ∧ x * y ≤ Bx * By :=
  ⟨mul_nonneg hx0 hy0, mul_le_mul hxB hyB hy0 hBx⟩

theorem upTo (x B : ℚ) (h : 0 ≤ x ∧ x ≤ B) (hB : B ≤ 28000) :
    0 ≤ x ∧ x ≤ 28000 :=
  ⟨h.1, h.2.trans hB⟩

/-- C2: for validated inputs the 26-feature engineer emits a vector whose
length equals the length of its feature-name schema and whose entries all
lie in the interval [0, 28000] (in this exact-arithmetic model a bounded
rational is the expression of a finite value: no NaN or infinity can
arise); the divergent 27-feature engineer likewise passes its own count
guard and satisfies the same invariants. -/
theorem engineer_features_length_and_finite (p : PatientData)
    (hA1 : 18 ≤ ageVal p) (hA2 : ageVal p ≤ 120)
    (hB1 : 10 ≤ bmiVal p) (hB2 : bmiVal p ≤ 70)
    (hG1 : 50 ≤ glucoseVal p) (hG2 : glucoseVal p ≤ 400)
    (hH : hypVal p = 0 ∨ hypVal p = 1)
    (hD : hdVal p = 0 ∨ hdVal p = 1) :
    ((engineer_features p).length = feature_names.length ∧
      ∀ x ∈ engineer_features p, 0 ≤ x ∧ x ≤ 28000) ∧
    (∃ fs, engineer_features27 p = some fs ∧
      fs.length = feature_names27.length ∧
      ∀ x ∈ fs, 0 ≤ x ∧ x ≤ 28000) := by
  have hA0 : (0:ℚ) ≤ ageVal p := by linarith
  have hB0 : (0:ℚ) ≤ bmiVal p := by linarith
  have hG0 : (0:ℚ) ≤ glucoseVal p := by linarith
  have hH0 : (0:ℚ) ≤ hypVal p := by rcases hH with h | h <;> rw [h] <;> norm_num
  have hH1 : hypVal p ≤ 1 := by rcases hH with h | h <;> rw [h] <;> norm_num
  have hD0 : (0:ℚ) ≤ hdVal p := by rcases hD with h | h <;> rw [h] <;> norm_num
  have hD1 : hdVal p ≤ 1 := by rcases hD with h | h <;> rw [h] <;> norm_num
  have hDia : 0 ≤ diabetes_indicator p ∧ diabetes_indicator p ≤ 1 := by
    unfold diabetes_indicator; exact ind01 _
  have hEld : 0 ≤ elderly_indicator p ∧ elderly_indicator p ≤ 1 := by
    unfold elderly_indicator; exact ind01 _
  have hObe : 0 ≤ obesity_indicator p ∧ obesity_indicator p ≤ 1 := by
    unfold obesity_indicator; exact ind01 _
  have hGm : 0 ≤ genderMaleVal p ∧ genderMaleVal p ≤ 1 := by
    unfold genderMaleVal; exact ind01 _
  have hGf : 0 ≤ genderFemaleVal p ∧ genderFemaleVal p ≤ 1 := by
    unfold genderFemaleVal; exact ind01 _
  have hMar : 0 ≤ marriedVal p ∧ marriedVal p ≤ 1 := by
    unfold marriedVal; exact ind01 _
  have hGO : 0 ≤ (if genderVal p = "Male" ∨ genderVal p = "Female"
      then (0:ℚ) else 1) ∧
      (if genderVal p = "Male" ∨ genderVal p = "Female"
      then (0:ℚ) else 1) ≤ 1 := by
    split <;> norm_num
  refine ⟨⟨rfl, ?_⟩, engineer_features27_list p, rfl, rfl, ?_⟩
  · have hList : engineer_features p =
        [ageVal p * diabetes_indicator p,
         hypVal p + hdVal p + diabetes_indicator p + obesity_indicator p,
         ageVal p / 10,
         2,
         hypVal p * elderly_indicator p,
         0,
         hypVal p,
         marriedVal p,
         genderMaleVal p * ageVal p,
         bmiVal p * hypVal p,
         ageVal p * hypVal p * diabetes_indicator p,
         bmiVal p * glucoseVal p,
         hdVal p,
         bmiVal p,
         elderly_indicator p,
         glucoseVal p * hdVal p,
         glucoseVal p,
         genderFemaleVal p,
         genderFemaleVal p * elderly_indicator p,
         ageVal p * hypVal p,
         ageVal p * obesity_indicator p,
         ageVal p,
         genderMaleVal p,
         (if genderVal p = "Male" ∨ genderVal p = "Female"
           then (0:ℚ) else 1),
         hypVal p + diabetes_indicator p + obesity_indicator p,
         bmiVal p * diabetes_indicator p] := rfl
    intro x hx
    rw [hList] at hx
    simp only [List.mem_cons, List.not_mem_nil, or_false] at hx
    rcases hx with rfl | rfl | rfl | rfl | rfl | rfl | rfl | rfl | rfl |
      rfl | rfl | rfl | rfl | rfl | rfl | rfl | rfl | rfl | rfl | rfl |
      rfl | rfl | rfl | rfl | rfl | rfl
    · exact upTo _ 120 (mulind hA0 hA2 hDia.1 hDia.2) (by norm_num)
    · exact ⟨by linarith [hDia.1, hObe.1],
        by linarith [hDia.2, hObe.2]⟩
    · exact ⟨by linarith, by linarith⟩
    · exact ⟨by norm_num, by norm_num⟩
    · exact upTo _ 1 (mulind hH0 hH1 hEld.1 hEld.2) (by norm_num)
    · exact ⟨by norm_num, by norm_num⟩
    · exact upTo _ 1 ⟨hH0, hH1⟩ (by norm_num)
    · exact upTo _ 1 hMar (by norm_num)
    · exact upTo _ 120 (indmul hGm.1 hGm.2 hA0 hA2) (by norm_num)
    · exact upTo _ 70 (mulind hB0 hB2 hH0 hH1) (by norm_num)
    · exact upTo _ 120 (mulind (mulind hA0 hA2 hH0 hH1).1
        (mulind hA0 hA2 hH0 hH1).2 hDia.1 hDia.2) (by norm_num)
    · exact upTo _ (70 * 400) (mulbound hB0 hB2 hG0 hG2 (by norm_num))
        (by norm_num)
    · exact upTo _ 1 ⟨hD0, hD1⟩ (by norm_num)
    · exact upTo _ 70 ⟨hB0, hB2⟩ (by norm_num)
    · exact upTo _ 1 hEld (by norm_num)
    · exact upTo _ 400 (mulind hG0 hG2 hD0 hD1) (by norm_num)
    · exact upTo _ 400 ⟨hG0, hG2⟩ (by norm_num)
    · exact upTo _ 1 hGf (by norm_num)
    · exact upTo _ 1 (mulind hGf.1 hGf.2 hEld.1 hEld.2) (by norm_num)
    · exact upTo _ 120 (mulind hA0 hA2 hH0 hH1) (by norm_num)
    · exact upTo _ 120 (mulind hA0 hA2 hObe.1 hObe.2) (by norm_num)
    · exact upTo _ 120 ⟨hA0, hA2⟩ (by norm_num)
    · exact upTo _ 1 hGm (by norm_num)
    · exact upTo _ 1 hGO (by norm_num)
    · exact ⟨by linarith [hDia.1, hObe.1], by linarith [hDia.2, hObe.2]⟩
    · exact upTo _ 70 (mulind hB0 hB2 hDia.1 hDia.2) (by norm_num)
  · intro x hx
    simp only [engineer_features27_list, List.mem_cons, List.not_mem_nil,
      or_false] at hx
    rcases hx with rfl | rfl | rfl | rfl | rfl | rfl | rfl | rfl | rfl |
      rfl | rfl | rfl | rfl | rfl | rfl | rfl | rfl | rfl | rfl | rfl |
      rfl | rfl | rfl | rfl | rfl | rfl | rfl
    · exact upTo _ 120 ⟨hA0, hA2⟩ (by norm_num)
    · exact upTo _ 1 ⟨hH0, hH1⟩ (by norm_num)
    · exact upTo _ 1 ⟨hD0, hD1⟩ (by norm_num)
    · exact upTo _ 400 ⟨hG0, hG2⟩ (by norm_num)
    · exact upTo _ 70 ⟨hB0, hB2⟩ (by norm_num)
    · exact upTo _ 1 hGm (by norm_num)
    · exact upTo _ 1 hGf (by norm_num)
    · exact upTo _ 1 hMar (by norm_num)
    · exact ⟨by linarith, by linarith⟩
    · exact upTo _ 1 hEld (by norm_num)
    · exact ⟨by linarith [hDia.1, hObe.1], by linarith [hDia.2, hObe.2]⟩
    · exact upTo _ 1 (mulind hH0 hH1 hEld.1 hEld.2) (by norm_num)
    · exact upTo _ 1 (mulind hGf.1 hGf.2 hEld.1 hEld.2) (by norm_num)
    · exact upTo _ 120 (indmul hGm.1 hGm.2 hA0 hA2) (by norm_num)
    · exact upTo _ 120 (mulind hA0 hA2 hH0 hH1) (by norm_num)
    · exact upTo _ 70 (mulind hB0 hB2 hH0 hH1) (by norm_num)
    · exact upTo _ 400 (mulind hG0 hG2 hD0 hD1) (by norm_num)
    · exact upTo _ 120 (mulind (mulind hA0 hA2 hH0 hH1).1
        (mulind hA0 hA2 hH0 hH1).2 hDia.1 hDia.2) (by norm_num)
    · exact upTo _ (70 * 400) (mulbound hB0 hB2 hG0 hG2 (by norm_num))
        (by norm_num)
    · exact upTo _ 120 (mulind hA0 hA2 hObe.1 hObe.2) (by norm_num)
    · exact upTo _ 70 (mulind hB0 hB2 hDia.1 hDia.2) (by norm_num)
    · exact upTo _ 120 (mulind hA0 hA2 hDia.1 hDia.2) (by norm_num)
    · exact ⟨by linarith [hDia.1, hObe.1], by linarith [hDia.2, hObe.2]⟩
    · exact ⟨by norm_num, by norm_num⟩
    · exact ⟨by norm_num, by norm_num⟩
    · exact upTo _ 1 hGm (by norm_num)
    · exact ⟨by norm_num, by norm_num⟩

/-- Witness for C2: the concrete 77-year-old high-risk patient satisfies
every validated-range hypothesis and the resulting vectors satisfy the
length and boundedness invariants. -/
theorem engineer_features_length_and_finite_witness :
    (18 ≤ ageVal patient77 ∧ ageVal patient77 ≤ 120 ∧
      10 ≤ bmiVal patient77 ∧ bmiVal patient77 ≤ 70 ∧
      50 ≤ glucoseVal patient77 ∧ glucoseVal patient77 ≤ 400 ∧
      (hypVal patient77 = 0 ∨ hypVal patient77 = 1) ∧
      (hdVal patient77 = 0 ∨ hdVal patient77 = 1)) ∧
    (((engineer_features patient77).length = feature_names.length ∧
      ∀ x ∈ engineer_features patient77, 0 ≤ x ∧ x ≤ 28000) ∧
    (∃ fs, engineer_features27 patient77 = some fs ∧
      fs.length = feature_names27.length ∧
      ∀ x ∈ fs, 0 ≤ x ∧ x ≤ 28000)) :=
  ⟨⟨by norm_num [ageVal, patient77], by norm_num [ageVal, patient77],
    by norm_num [bmiVal, patient77], by norm_num [bmiVal, patient77],
    by norm_num [glucoseVal, patient77], by norm_num [glucoseVal, patient77],
    Or.inr (by norm_num [hypVal, patient77]),
    Or.inr (by norm_num [hdVal, patient77])⟩,
   engineer_features_length_and_finite patient77
    (by norm_num [ageVal, patient77]) (by norm_num [ageVal, patient77])
    (by norm_num [bmiVal, patient77]) (by norm_num [bmiVal, patient77])
    (by norm_num [glucoseVal, patient77]) (by norm_num [glucoseVal, patient77])
    (Or.inr (by norm_num [hypVal, patient77]))
    (Or.inr (by norm_num [hdVal, patient77]))⟩

/-- C7: for validated inputs (age at least 18 and glucose at least 50 are
what the argument needs) the feature-importance mapping has no negative
weight and its weights sum to 1 within the 1e-6 tolerance (in exact
arithmetic the normalized sum is exactly 1). -/
theorem feature_importance_normalized (p : PatientData)
    (hage : 18 ≤ ageVal p) (hglu : 50 ≤ glucoseVal p) :
    (∀ kv ∈ get_feature_importance p, 0 ≤ kv.2) ∧
    |((get_feature_importance p).map Prod.snd).sum - 1| ≤ 1/1000000 := by
  have hAge : (18:ℚ)/100 ≤ wAge p := le_min (by linarith) (by norm_num)
  have hAge0 : 0 ≤ wAge p := le_trans (by norm_num) hAge
  have hHyp0 : 0 ≤ wHyp p := by unfold wHyp; split <;> norm_num
  have hHeart0 : 0 ≤ wHeart p := by unfold wHeart; split <;> norm_num
  have hGlu0 : 0 ≤ wGlucose p := le_min (by linarith) (by norm_num)
  have hBmi0 : 0 ≤ wBmi p := by unfold wBmi; split_ifs <;> norm_num
  have hSmoke0 : 0 ≤ wSmoke p := by unfold wSmoke; split_ifs <;> norm_num
  have hGender0 : 0 ≤ wGender p := by unfold wGender; split <;> norm_num
  have hMarried0 : 0 ≤ wMarried p := by unfold wMarried; split <;> norm_num
  have htot : importance_total p = wAge p + wHyp p + wHeart p +
      wGlucose p + wBmi p + wSmoke p + wGender p + wMarried p := by
    simp [importance_total, importance_raw]
    ring
  have htpos : 0 < importance_total p := by rw [htot]; linarith
  have hifpos : get_feature_importance p =
      (importance_raw p).map fun kv => (kv.1, kv.2 / importance_total p) := by
    rw [get_feature_importance, if_pos htpos]
  have hne : importance_total p ≠ 0 := ne_of_gt htpos
  constructor
  · intro kv hkv
    rw [hifpos] at hkv
    simp only [List.mem_map] at hkv
    obtain ⟨kv0, hkv0, rfl⟩ := hkv
    have h0 : 0 ≤ kv0.2 := by
      simp only [importance_raw, List.mem_cons, List.not_mem_nil,
        or_false] at hkv0
      rcases hkv0 with rfl | rfl | rfl | rfl | rfl | rfl | rfl | rfl <;>
        first
        | exact hAge0 | exact hHyp0 | exact hHeart0 | exact hGlu0
        | exact hBmi0 | exact hSmoke0 | exact hGender0 | exact hMarried0
    exact div_nonneg h0 htpos.le
  · have hsum : ((get_feature_importance p).map Prod.snd).sum = 1 := by
      rw [hifpos]
      simp only [importance_raw, List.map_cons, List.map_nil,
        List.sum_cons, List.sum_nil]
      field_simp
      rw [htot]
      ring
    rw [hsum]
    norm_num

/-- Witness for C7: the concrete 77-year-old patient satisfies the range
hypotheses, its importance weights are all nonnegative and they sum to 1
within the tolerance. -/
theorem feature_importance_normalized_witness :
    (18 ≤ ageVal patient77 ∧ 50 ≤ glucoseVal patient77) ∧
    ((∀ kv ∈ get_feature_importance patient77, 0 ≤ kv.2) ∧
      |((get_feature_importance patient77).map Prod.snd).sum - 1| ≤
        1/1000000) :=
  ⟨⟨by norm_num [ageVal, patient77], by norm_num [glucoseVal, patient77]⟩,
   feature_importance_normalized patient77
    (by norm_num [ageVal, patient77])
    (by norm_num [glucoseVal, patient77])⟩

/-- C9: the silent-zero fallback of the 26-feature engineer is
unreachable: every one of its 26 schema names is a key of the computed
mapping for every input, so the strict (hard-error) builder succeeds and
produces exactly the emitted vector. -/
theorem fallback_unreachable (p : PatientData) :
    buildFeaturesStrict feature_names (feature_mapping p) =
      some (engineer_features p) := by
  rfl

end StrokeRisk
